import Mathlib

/-!
Verification development for the Astraea client control loop
(`src/client_eval_batch.cc`).

The client runs a periodic congestion-control cycle: it captures a kernel
telemetry snapshot, sends it as a length-framed JSON `ALIVE` message to a
decision process over a unix-domain IPC socket, blocks for the reply, decodes
a congestion-window value and applies it, optionally appending a line to a
performance log.  A second thread continuously writes filler data, and a
signal handler performs shutdown.

The embedding below models the byte-level message codec, the control cycle,
the cadence arithmetic of `control_thread`, the data thread, the signal
handler and the thread-startup logic of `main`.  Helper code of the
repository that is not part of the given source file (the vendored
`json.hpp` serializer/parser, `put_field`/`get_uint16` from
`serialization.hh`, `IPCSocket::read_exactly`, `Socket::write`) is modelled
from the specification, as noted on each definition.
-/

/-- Modelled from the spec: ASCII decimal digit test, used by the modelled
JSON number parser (the vendored `json.hpp` is not under `src/`). -/
def isDigitB (c : Nat) : Bool := 48 ≤ c && c ≤ 57

/-- Fuel-driven decimal serializer: digits of `n`, most significant first,
as ASCII bytes.  Helper for `natBytes`. -/
def natBytesAux : Nat → Nat → List Nat
  | 0, _ => []
  | fuel + 1, n => if n < 10 then [48 + n] else natBytesAux fuel (n / 10) ++ [48 + n % 10]

/-- Modelled from the spec: decimal serialization of a non-negative integer,
as performed by `json.hpp`'s `dump()` for JSON numbers (not under `src/`). -/
def natBytes (n : Nat) : List Nat := natBytesAux (n + 1) n

/-- Modelled from the spec: decimal serialization of a C `int` as streamed by
`operator<<` / `json.hpp`: optional minus sign followed by digits. -/
def intBytes : Int → List Nat
  | Int.ofNat n => natBytes n
  | Int.negSucc n => 45 :: natBytes (n + 1)

/-- Longest digit prefix of a byte list, and the remaining bytes. -/
def takeDigits : List Nat → List Nat × List Nat
  | [] => ([], [])
  | c :: cs =>
    if isDigitB c then
      let r := takeDigits cs
      (c :: r.1, r.2)
    else ([], c :: cs)

/-- Value of a digit list, accumulator style. -/
def digitsVal : Nat → List Nat → Nat
  | acc, [] => acc
  | acc, c :: cs => digitsVal (acc * 10 + (c - 48)) cs

/-- Modelled from the spec: parse a decimal JSON number from the head of a
byte list (part of the modelled `json::parse`, `json.hpp` not under `src/`). -/
def parseNat (bs : List Nat) : Option (Nat × List Nat) :=
  match takeDigits bs with
  | ([], _) => none
  | (ds, rest) => some (digitsVal 0 ds, rest)

/-- Consume an expected literal byte sequence from the head of the input;
helper for the modelled JSON parser. -/
def stripLit : List Nat → List Nat → Option (List Nat)
  | [], bs => some bs
  | _ :: _, [] => none
  | a :: ps, b :: bs => if b = a then stripLit ps bs else none

/-- True when the list starts with a byte that is not a decimal digit. -/
def headNondigit : List Nat → Bool
  | [] => false
  | c :: _ => !isDigitB c

/-- Telemetry Snapshot (`state` JSON produced by
`get_tcp_deepcc_info_json`, `deepcc_socket.hh` not under `src/`): the twelve
fields the client reads and logs (client_eval_batch.cc:136-145), modelled
from the spec's data model (spec §3, §6). -/
structure Snapshot where
  min_rtt : Nat
  avg_urtt : Nat
  cnt : Nat
  srtt_us : Nat
  avg_thr : Nat
  thr_cnt : Nat
  pacing_rate : Nat
  loss_bytes : Nat
  packets_out : Nat
  retrans_out : Nat
  max_packets_out : Nat
  cwnd : Nat
deriving DecidableEq

/-- Message kinds of the IPC protocol (client_eval_batch.cc:51). -/
inductive MessageType where
  | INIT
  | START
  | END
  | ALIVE
  | OBSERVE
deriving DecidableEq

/-- Numeric codes of the message kinds (client_eval_batch.cc:51,
`to_underlying` at 53-56). -/
def typeCode : MessageType → Nat
  | MessageType.INIT => 0
  | MessageType.START => 1
  | MessageType.END => 2
  | MessageType.ALIVE => 3
  | MessageType.OBSERVE => 4

def kFlowId : List Nat := [102, 108, 111, 119, 95, 105, 100]

def kObserver : List Nat := [111, 98, 115, 101, 114, 118, 101, 114]

def kState : List Nat := [115, 116, 97, 116, 101]

def kStep : List Nat := [115, 116, 101, 112]

def kType : List Nat := [116, 121, 112, 101]

def kAvgThr : List Nat := [97, 118, 103, 95, 116, 104, 114]

def kAvgUrtt : List Nat := [97, 118, 103, 95, 117, 114, 116, 116]

def kCnt : List Nat := [99, 110, 116]

def kCwnd : List Nat := [99, 119, 110, 100]

def kLossBytes : List Nat := [108, 111, 115, 115, 95, 98, 121, 116, 101, 115]

def kMaxPacketsOut : List Nat := [109, 97, 120, 95, 112, 97, 99, 107, 101, 116, 115, 95, 111, 117, 116]

def kMinRtt : List Nat := [109, 105, 110, 95, 114, 116, 116]

def kPacingRate : List Nat := [112, 97, 99, 105, 110, 103, 95, 114, 97, 116, 101]

def kPacketsOut : List Nat := [112, 97, 99, 107, 101, 116, 115, 95, 111, 117, 116]

def kRetransOut : List Nat := [114, 101, 116, 114, 97, 110, 115, 95, 111, 117, 116]

def kSrttUs : List Nat := [115, 114, 116, 116, 95, 117, 115]

def kThrCnt : List Nat := [116, 104, 114, 95, 99, 110, 116]

/-- Bytes of a quoted JSON object key followed by a colon, as emitted by
`json.hpp`'s compact `dump()`. -/
def keyB (k : List Nat) : List Nat := 34 :: (k ++ [34, 58])

/-- Modelled from the spec: `json.hpp`'s compact `dump()` of the snapshot
object (vendored `json.hpp` is not under `src/`): keys in sorted order, no
whitespace, 123/125 are the braces, 44 the comma. -/
def dumpSnapshot (s : Snapshot) : List Nat :=
  [123] ++ keyB kAvgThr ++ natBytes s.avg_thr
  ++ [44] ++ keyB kAvgUrtt ++ natBytes s.avg_urtt
  ++ [44] ++ keyB kCnt ++ natBytes s.cnt
  ++ [44] ++ keyB kCwnd ++ natBytes s.cwnd
  ++ [44] ++ keyB kLossBytes ++ natBytes s.loss_bytes
  ++ [44] ++ keyB kMaxPacketsOut ++ natBytes s.max_packets_out
  ++ [44] ++ keyB kMinRtt ++ natBytes s.min_rtt
  ++ [44] ++ keyB kPacingRate ++ natBytes s.pacing_rate
  ++ [44] ++ keyB kPacketsOut ++ natBytes s.packets_out
  ++ [44] ++ keyB kRetransOut ++ natBytes s.retrans_out
  ++ [44] ++ keyB kSrttUs ++ natBytes s.srtt_us
  ++ [44] ++ keyB kThrCnt ++ natBytes s.thr_cnt
  ++ [125]

/-- The `observer` field inserted only for OBSERVE messages
(client_eval_batch.cc:70-73). -/
def observerField (t : MessageType) (obs : Int) : List Nat :=
  match t with
  | MessageType.OBSERVE => [44] ++ keyB kObserver ++ intBytes obs
  | _ => []

/-- The `step` field inserted only for OBSERVE messages
(client_eval_batch.cc:70-73). -/
def stepField (t : MessageType) (stp : Int) : List Nat :=
  match t with
  | MessageType.OBSERVE => [44] ++ keyB kStep ++ intBytes stp
  | _ => []

/-- The optional `state` member: present only when the snapshot json is
non-empty (client_eval_batch.cc:65-67). -/
def stateField : Option Snapshot → List Nat
  | some s => [44] ++ keyB kState ++ dumpSnapshot s
  | none => []

/-- Modelled from the spec: the payload `message.dump()` of
`unix_send_message` (client_eval_batch.cc:64-79): a JSON object with
`flow_id`, optional `state`, for OBSERVE `observer` and `step`, and `type`;
`json.hpp` (not under `src/`) serializes members in sorted key order
(flow_id < observer < state < step < type). -/
def dumpMessage (t : MessageType) (fid : Nat) (st : Option Snapshot) (obs stp : Int) : List Nat :=
  [123] ++ keyB kFlowId ++ natBytes fid
  ++ observerField t obs
  ++ stateField st
  ++ stepField t stp
  ++ [44] ++ keyB kType ++ natBytes (typeCode t)
  ++ [125]

/-- Modelled from the spec: `put_field(uint16_t)` from `serialization.hh`
(not under `src/`) — the 2-byte big-endian length header (spec §4.1). -/
def put_field (n : Nat) : List Nat := [n / 256 % 256, n % 256]

/-- Modelled from the spec: `get_uint16` from `serialization.hh` (not under
`src/`) — reads a 2-byte big-endian length header (spec §4.1). -/
def get_uint16 : List Nat → Nat
  | b0 :: b1 :: _ => b0 * 256 + b1
  | _ => 0

/-- A framed wire message: `put_field(len) + payload` where `len` is the
payload length truncated to `uint16_t` (client_eval_batch.cc:79-81). -/
def frameMessage (payload : List Nat) : List Nat :=
  put_field (payload.length % 65536) ++ payload

/-- `unix_send_message` (client_eval_batch.cc:61-83): the bytes written to
the IPC socket.  `conn` is `ipc_sock`'s null test: with no connection the
guard at line 80 makes the write a no-op. -/
def unix_send_message (conn : Bool) (t : MessageType) (fid : Nat) (st : Option Snapshot)
    (obs stp : Int) : List Nat :=
  if conn then frameMessage (dumpMessage t fid st obs stp) else []

/-- Modelled from the spec: `IPCSocket::read_exactly` (`ipc_socket.hh` not
under `src/`): blocks until exactly `n` bytes arrive; `none` models an input
stream that never delivers enough bytes. -/
def read_exactly (n : Nat) (s : List Nat) : Option (List Nat × List Nat) :=
  if n ≤ s.length then some (s.take n, s.drop n) else none

/-- `unix_recv_message` (client_eval_batch.cc:85-90): reads a 2-byte header,
then exactly that many payload bytes, from the stream held by the handle.
The handle is an `Option`: the source dereferences `ipc` with NO null
guard (`ipc->read_exactly(2)`), so a null handle is modelled as `none`
(undefined behavior / crash), unlike `unix_send_message` which is guarded. -/
def unix_recv_message (ipc : Option (List Nat)) : Option (List Nat × List Nat) :=
  match ipc with
  | none => none
  | some stream =>
    match read_exactly 2 stream with
    | none => none
    | some (header, rest) =>
      match read_exactly (get_uint16 header) rest with
      | none => none
      | some (data, rest2) => some (data, rest2)

/-- Generic serializer for a run of JSON fields: for each `(sep, v)` pair
emit the literal separator bytes then the decimal value, ending with `tail`.
`dumpMessage` for an ALIVE message flattens to this shape. -/
def dumpFieldSeq : List (List Nat × Nat) → List Nat → List Nat
  | [], tail => tail
  | (sep, v) :: rest, tail => sep ++ (natBytes v ++ dumpFieldSeq rest tail)

/-- Modelled from the spec: the structural part of `json::parse` (vendored
`json.hpp` not under `src/`) for a fixed sequence of numeric fields: consume
each expected separator literal then a decimal number; any other shape is a
decode failure. -/
def parseFieldSeq : List (List Nat) → List Nat → Option (List Nat × List Nat)
  | [], bs => some ([], bs)
  | sep :: seps, bs =>
    match stripLit sep bs with
    | none => none
    | some bs1 =>
      match parseNat bs1 with
      | none => none
      | some (v, bs2) =>
        match parseFieldSeq seps bs2 with
        | none => none
        | some (vs, rest) => some (v :: vs, rest)

/-- Leading bytes of every client message: an opening brace and the quoted
`flow_id` key. -/
def aliveHead : List Nat := [123] ++ keyB kFlowId

/-- Separator between the flow id and the first snapshot field in an ALIVE
payload: `,"state":` then the snapshot's opening brace and its first
(sorted) key `avg_thr`. -/
def sepState : List Nat := [44] ++ keyB kState ++ [123] ++ keyB kAvgThr

def sepAvgUrtt : List Nat := [44] ++ keyB kAvgUrtt

def sepCnt : List Nat := [44] ++ keyB kCnt

def sepCwnd : List Nat := [44] ++ keyB kCwnd

def sepLossBytes : List Nat := [44] ++ keyB kLossBytes

def sepMaxPacketsOut : List Nat := [44] ++ keyB kMaxPacketsOut

def sepMinRtt : List Nat := [44] ++ keyB kMinRtt

def sepPacingRate : List Nat := [44] ++ keyB kPacingRate

def sepPacketsOut : List Nat := [44] ++ keyB kPacketsOut

def sepRetransOut : List Nat := [44] ++ keyB kRetransOut

def sepSrttUs : List Nat := [44] ++ keyB kSrttUs

def sepThrCnt : List Nat := [44] ++ keyB kThrCnt

/-- Trailing bytes of an ALIVE payload: the snapshot's closing brace, the
`type` member with code 3, and the message's closing brace. -/
def aliveTail : List Nat := [125, 44] ++ keyB kType ++ natBytes 3 ++ [125]

/-- The separator/value pairs of an ALIVE payload, in dump order. -/
def aliveSpec (fid : Nat) (s : Snapshot) : List (List Nat × Nat) :=
  [(aliveHead, fid), (sepState, s.avg_thr), (sepAvgUrtt, s.avg_urtt), (sepCnt, s.cnt),
   (sepCwnd, s.cwnd), (sepLossBytes, s.loss_bytes), (sepMaxPacketsOut, s.max_packets_out),
   (sepMinRtt, s.min_rtt), (sepPacingRate, s.pacing_rate), (sepPacketsOut, s.packets_out),
   (sepRetransOut, s.retrans_out), (sepSrttUs, s.srtt_us), (sepThrCnt, s.thr_cnt)]

/-- The separators of an ALIVE payload. -/
def aliveSeps : List (List Nat) :=
  [aliveHead, sepState, sepAvgUrtt, sepCnt, sepCwnd, sepLossBytes, sepMaxPacketsOut,
   sepMinRtt, sepPacingRate, sepPacketsOut, sepRetransOut, sepSrttUs, sepThrCnt]

/-- Modelled from the spec: decoding an ALIVE payload back into the flow id
and the embedded Telemetry Snapshot (the decision process's `json` parse of
the message; `json.hpp` not under `src/`).  Accepts exactly the canonical
compact dump shape produced by `dumpMessage`. -/
def parseAlive (bs : List Nat) : Option (Nat × Snapshot) :=
  match parseFieldSeq aliveSeps bs with
  | some ([fid, vAvgThr, vAvgUrtt, vCnt, vCwnd, vLossBytes, vMaxPo, vMinRtt,
           vPacingRate, vPacketsOut, vRetransOut, vSrttUs, vThrCnt], rest) =>
    match stripLit aliveTail rest with
    | some [] =>
      some (fid,
        { min_rtt := vMinRtt, avg_urtt := vAvgUrtt, cnt := vCnt, srtt_us := vSrttUs,
          avg_thr := vAvgThr, thr_cnt := vThrCnt, pacing_rate := vPacingRate,
          loss_bytes := vLossBytes, packets_out := vPacketsOut, retrans_out := vRetransOut,
          max_packets_out := vMaxPo, cwnd := vCwnd })
    | _ => none
  | _ => none

/-- Modelled from the spec: `json::parse(data)` followed by
`reply["flow_id"]` in the startup handshake (client_eval_batch.cc:267-269);
the canonical handshake reply is an object carrying the assigned flow id. -/
def parseFlowId (bs : List Nat) : Option Nat :=
  match parseFieldSeq [aliveHead] bs with
  | some ([fid], rest) =>
    match stripLit [125] rest with
    | some [] => some fid
    | _ => none
  | _ => none

def cwndHead : List Nat := [123, 34, 99, 119, 110, 100, 34, 58]

/-- Modelled from the spec: parse of a signed JSON integer (JSON numbers may
carry a leading minus sign; the client stores the result in a C `int`,
client_eval_batch.cc:120-122). -/
def parseIntBs (bs : List Nat) : Option (Int × List Nat) :=
  match bs with
  | 45 :: rest =>
    match parseNat rest with
    | some (n, r) => some (-(n : Int), r)
    | none => none
  | _ =>
    match parseNat bs with
    | some (n, r) => some ((n : Int), r)
    | none => none

/-- Modelled from the spec: `json::parse(data).at("cwnd")` on the decision
process's reply (client_eval_batch.cc:121-122; `json.hpp` not under `src/`).
`none` models the thrown-and-caught parse/`at` exception for any reply that
is not a canonical object with the required `cwnd` field. -/
def parseCwndReply (bs : List Nat) : Option Int :=
  match stripLit cwndHead bs with
  | some bs1 =>
    match parseIntBs bs1 with
    | some (v, bs2) =>
      match stripLit [125] bs2 with
      | some [] => some v
      | _ => none
    | none => none
  | none => none

/-- A snapshot is valid when every field fits the kernel's 64-bit counters
(spec §3: snapshot fields are transport-layer counters). -/
def ValidSnapshot (s : Snapshot) : Prop :=
  s.min_rtt < 2 ^ 64 ∧ s.avg_urtt < 2 ^ 64 ∧ s.cnt < 2 ^ 64 ∧ s.srtt_us < 2 ^ 64 ∧
  s.avg_thr < 2 ^ 64 ∧ s.thr_cnt < 2 ^ 64 ∧ s.pacing_rate < 2 ^ 64 ∧ s.loss_bytes < 2 ^ 64 ∧
  s.packets_out < 2 ^ 64 ∧ s.retrans_out < 2 ^ 64 ∧ s.max_packets_out < 2 ^ 64 ∧ s.cwnd < 2 ^ 64

/-- Receiver side of the codec round trip: run `unix_recv_message` on a wire
stream, then parse the delivered payload as an ALIVE message. -/
def recvAndParseAlive (stream : List Nat) : Option (Nat × Snapshot) :=
  match unix_recv_message (some stream) with
  | none => none
  | some (data, _) => parseAlive data

/-- Observable effects of the client, used to state trace properties. -/
inductive Event where
  | sendMsg : List Nat → Event
  | warn : Event
  | setCwnd : Int → Event
  | logLine : List Nat → Event
  | writeData : List Nat → Event
deriving DecidableEq

/-- Control-loop state: the last window applied via `set_tcp_cwnd` (`none`
until the first successful cycle — the kernel algorithm's own window is in
effect), and whether `perf_log` is non-null. -/
structure CtlState where
  lastApplied : Option Int
  logEnabled : Bool
deriving DecidableEq

/-- One performance-log data line (client_eval_batch.cc:135-146): the
snapshot fields in stream order separated by tabs (byte 9), with `srtt_us`
shifted right by 3 (line 138) and the assigned cwnd last. -/
def logBytes (state : Snapshot) (cwnd : Int) : List Nat :=
  natBytes state.min_rtt ++ [9] ++ natBytes state.avg_urtt ++ [9]
  ++ natBytes state.cnt ++ [9] ++ natBytes (state.srtt_us >>> 3) ++ [9]
  ++ natBytes state.avg_thr ++ [9] ++ natBytes state.thr_cnt ++ [9]
  ++ natBytes state.pacing_rate ++ [9] ++ natBytes state.loss_bytes ++ [9]
  ++ natBytes state.packets_out ++ [9] ++ natBytes state.retrans_out ++ [9]
  ++ natBytes state.max_packets_out ++ [9] ++ natBytes state.cwnd ++ [9]
  ++ intBytes cwnd

/-- The performance-log header line (client_eval_batch.cc:308-320): thirteen
column names joined by tabs. -/
def headerBytes : List Nat := [109, 105, 110, 95, 114, 116, 116, 9, 97, 118, 103, 95, 117, 114, 116, 116, 9, 99, 110, 116, 9, 115, 114, 116, 116, 95, 117, 115, 9, 97, 118, 103, 95, 116, 104, 114, 9, 116, 104, 114, 95, 99, 110, 116, 9, 112, 97, 99, 105, 110, 103, 95, 114, 97, 116, 101, 9, 108, 111, 115, 115, 95, 98, 121, 116, 101, 115, 9, 112, 97, 99, 107, 101, 116, 115, 95, 111, 117, 116, 9, 114, 101, 116, 114, 97, 110, 115, 95, 111, 117, 116, 9, 109, 97, 120, 95, 112, 97, 99, 107, 101, 116, 115, 95, 111, 117, 116, 9, 67, 87, 78, 68, 32, 105, 110, 32, 75, 101, 114, 110, 101, 108, 9, 67, 87, 78, 68, 32, 116, 111, 32, 65, 115, 115, 105, 103, 110]

/-- The thirteen column names of the performance-log header, in order. -/
def headerFields : List (List Nat) := [
  [109, 105, 110, 95, 114, 116, 116],
  [97, 118, 103, 95, 117, 114, 116, 116],
  [99, 110, 116],
  [115, 114, 116, 116, 95, 117, 115],
  [97, 118, 103, 95, 116, 104, 114],
  [116, 104, 114, 95, 99, 110, 116],
  [112, 97, 99, 105, 110, 103, 95, 114, 97, 116, 101],
  [108, 111, 115, 115, 95, 98, 121, 116, 101, 115],
  [112, 97, 99, 107, 101, 116, 115, 95, 111, 117, 116],
  [114, 101, 116, 114, 97, 110, 115, 95, 111, 117, 116],
  [109, 97, 120, 95, 112, 97, 99, 107, 101, 116, 115, 95, 111, 117, 116],
  [67, 87, 78, 68, 32, 105, 110, 32, 75, 101, 114, 110, 101, 108],
  [67, 87, 78, 68, 32, 116, 111, 32, 65, 115, 115, 105, 103, 110]]

/-- Join byte-list fields with a separator (tab for the performance log). -/
def sepJoin (sep : List Nat) : List (List Nat) → List Nat
  | [] => []
  | [x] => x
  | x :: xs => x ++ sep ++ sepJoin sep xs

/-- One control cycle, `do_congestion_control` (client_eval_batch.cc:111-147):
capture `snap`, send it as an ALIVE message (no-op write on a null handle),
block on `unix_recv_message` — `conn = false` models the null
`inference_server` handle, for which the unguarded dereference is undefined
(`none`) — then decode `cwnd` from the reply payload; on decode failure log
a warning and return (lines 123-127: neither `set_tcp_cwnd` nor the
perf-log write runs); on success apply the window and, if logging is on,
append the log line.  `payload` is the reply the decision process frames
onto the wire for this cycle. -/
def doCongestionControl (conn : Bool) (fid : Nat) (st : CtlState) (snap : Snapshot)
    (payload : List Nat) : Option (CtlState × List Event) :=
  let sendEvs := if conn then [Event.sendMsg (unix_send_message conn MessageType.ALIVE fid (some snap) (-1) (-1))] else []
  match unix_recv_message (if conn then some (frameMessage payload) else none) with
  | none => none
  | some (data, _) =>
    match parseCwndReply data with
    | none => some (st, sendEvs ++ [Event.warn])
    | some c =>
      some ({ st with lastApplied := some c },
        sendEvs ++ [Event.setCwnd c]
          ++ (if st.logEnabled then [Event.logLine (logBytes snap c)] else []))

/-- The control loop, `control_thread` (client_eval_batch.cc:149-159):
each iteration reads `send_traffic` (the flag component of the input),
exits if it is false, otherwise runs one cycle with that iteration's
snapshot and reply.  `none` propagates a crashed cycle. -/
def controlRun (conn : Bool) (fid : Nat) (st : CtlState) :
    List (Bool × Snapshot × List Nat) → Option (CtlState × List Event)
  | [] => some (st, [])
  | (flag, snap, payload) :: rest =>
    if flag then
      match doCongestionControl conn fid st snap payload with
      | none => none
      | some (st1, evs) =>
        match controlRun conn fid st1 rest with
        | none => none
        | some (st2, evs2) => some (st2, evs ++ evs2)
    else some (st, [])

/-- Number of performance-log data lines in a trace. -/
def countLogLines (evs : List Event) : Nat :=
  evs.countP (fun e => match e with | Event.logLine _ => true | _ => false)

/-- The decode outcome of a cycle whose framed reply carries `payload`:
what `parseCwndReply` sees after the 2-byte framing is stripped (the
`uint16_t` length truncation at client_eval_batch.cc:79 may shorten it). -/
def cycleDecoded (payload : List Nat) : Option Int :=
  parseCwndReply (List.take (payload.length % 65536) payload)

/-- Number of executed control cycles whose reply decodes successfully
(the loop stops at the first false flag). -/
def successCount : List (Bool × Snapshot × List Nat) → Nat
  | [] => 0
  | (flag, _, payload) :: rest =>
    if flag then (if (cycleDecoded payload).isSome then 1 else 0) + successCount rest else 0

/-- Start time of the k-th control cycle (client_eval_batch.cc:149-159):
`target_time` starts at `t0 + I` and advances by exactly `I` per iteration
(line 157) regardless of processing time; `sleep_until` resumes at
`max(now, target)`, so cycle `k+1` starts at the larger of cycle `k`'s
finish time and the k+1-th cadence boundary. -/
def cycleStart (t0 I : Nat) (p : Nat → Nat) : Nat → Nat
  | 0 => t0
  | k + 1 => max (cycleStart t0 I p k + p k) (t0 + (k + 1) * I)

/-- Process-level state touched by the signal handler. -/
structure ProcState where
  sendTraffic : Bool
  logOpen : Bool
  connOpen : Bool
  endsSent : Nat
  exited : Bool
deriving DecidableEq

/-- The signals handled by `signal_handler` (client_eval_batch.cc:93):
SIGINT = 2, SIGKILL = 9, SIGTERM = 15. -/
def isTermSig (s : Nat) : Bool := s = 2 || s = 9 || s = 15

/-- `signal_handler` (client_eval_batch.cc:92-109): on a termination signal
it clears `send_traffic`, closes the performance log, sends one END message
if the decision-process connection exists, and exits the process (`exit(1)`
at line 107).  A handler invocation after the process has exited cannot
occur; the model makes an exited state absorbing. -/
def signalHandler (st : ProcState) (sig : Nat) : ProcState :=
  if st.exited then st
  else if isTermSig sig then
    { sendTraffic := false, logOpen := false, connOpen := st.connOpen,
      endsSent := st.endsSent + (if st.connOpen then 1 else 0), exited := true }
  else st

/-- Deliver a sequence of signals to the process. -/
def deliverSignals (st : ProcState) (sigs : List Nat) : ProcState :=
  sigs.foldl signalHandler st

/-- Modelled from the spec: the filler buffer of `data_thread`
(client_eval_batch.cc:162): `string(BUFSIZ, 'a')`, BUFSIZ being glibc's
8192-byte stdio buffer size (spec §4.3: one kernel socket buffer page,
content irrelevant). -/
def dataChunk : List Nat := List.replicate 8192 97

/-- Why the data loop stopped. -/
inductive DataExit where
  | flagDown
  | writeFail
deriving DecidableEq

/-- `data_thread` (client_eval_batch.cc:161-167): while `send_traffic` is
true, write the filler buffer.  Each input pair is one iteration: the value
of the flag read at the loop head, and — modelled from the spec (§4.3,
`Socket::write` not under `src/`) — whether the blocking write succeeds; a
broken-connection write failure ends this loop only.  The loop never writes
the flag itself.  Result: the write events performed and the exit cause
(`none` when the supplied schedule ran out with the loop still running). -/
def dataLoop : List (Bool × Bool) → List Event × Option DataExit
  | [] => ([], none)
  | (flag, writeOk) :: rest =>
    if flag then
      if writeOk then
        ((Event.writeData dataChunk) :: (dataLoop rest).1, (dataLoop rest).2)
      else ([Event.writeData dataChunk], some DataExit.writeFail)
    else ([], some DataExit.flagDown)

/-- Startup configuration (command line, client_eval_batch.cc:197-259):
whether `--cong=astraea` was given, whether `--perf-log` was given, and the
optional `--id`. -/
structure Config where
  congAstraea : Bool
  perfLogEnabled : Bool
  flowId : Option Nat
deriving DecidableEq

/-- `use_RL` is set true only inside the astraea branch
(client_eval_batch.cc:207, 274). -/
def useRL (cfg : Config) : Bool := cfg.congAstraea

/-- `inference_server` is non-null only when the astraea branch ran
(client_eval_batch.cc:44, 261). -/
def inferenceServerConnected (cfg : Config) : Bool := cfg.congAstraea

/-- The control thread is started iff `use_RL and inference_server !=
nullptr` (client_eval_batch.cc:324). -/
def controlThreadStarted (cfg : Config) : Bool :=
  useRL cfg && inferenceServerConnected cfg

/-- The whole run of `main` after option parsing (client_eval_batch.cc:252-335):
in the astraea branch, connect, send START, block for the handshake reply
(`hsPayload`, framed by the server) and parse the assigned flow id (an
uncaught parse exception at startup is `none`); write the log header if
`--perf-log` was given; start the control thread iff
`controlThreadStarted`; always run the data thread.  The returned trace
concatenates each activity's events; `none` means the process crashed. -/
def mainRun (cfg : Config) (hsPayload : List Nat) (ctl : List (Bool × Snapshot × List Nat))
    (dat : List (Bool × Bool)) : Option (List Event) :=
  if cfg.congAstraea then
    match unix_recv_message (some (frameMessage hsPayload)) with
    | none => none
    | some (data, _) =>
      match parseFlowId data with
      | none => none
      | some fid =>
        match (if controlThreadStarted cfg then
                 controlRun true fid { lastApplied := none, logEnabled := cfg.perfLogEnabled } ctl
               else some ({ lastApplied := none, logEnabled := cfg.perfLogEnabled }, [])) with
        | none => none
        | some (_, cevs) =>
          some ([Event.sendMsg (unix_send_message true MessageType.START (cfg.flowId.getD 0) none (-1) (-1))]
            ++ (if cfg.perfLogEnabled then [Event.logLine headerBytes] else [])
            ++ cevs ++ (dataLoop dat).1)
  else
    some ((if cfg.perfLogEnabled then [Event.logLine headerBytes] else []) ++ (dataLoop dat).1)

/-- The first performance-log line in a trace, if any. -/
def firstLogLine (evs : List Event) : Option (List Nat) :=
  (evs.filterMap (fun e => match e with | Event.logLine l => some l | _ => none)).head?

/-- A concrete all-zero snapshot, used as witness input. -/
def snapZero : Snapshot :=
  { min_rtt := 0, avg_urtt := 0, cnt := 0, srtt_us := 0, avg_thr := 0, thr_cnt := 0,
    pacing_rate := 0, loss_bytes := 0, packets_out := 0, retrans_out := 0,
    max_packets_out := 0, cwnd := 0 }

/-- A well-formed decision-process reply assigning window 5. -/
def goodReply5 : List Nat := [123, 34, 99, 119, 110, 100, 34, 58, 53, 125]

/-- A malformed decision-process reply (the single byte `x`). -/
def badReply : List Nat := [120]

/-- A well-formed decision-process reply carrying a NEGATIVE window, -1. -/
def negReply : List Nat := [123, 34, 99, 119, 110, 100, 34, 58, 45, 49, 125]

/-- A well-formed handshake reply assigning flow id 1. -/
def flowIdReply1 : List Nat := [123, 34, 102, 108, 111, 119, 95, 105, 100, 34, 58, 49, 125]

lemma natBytesAux_congr (n : Nat) : ∀ f g, n < f → n < g → natBytesAux f n = natBytesAux g n := by
  induction n using Nat.strong_induction_on with
  | _ n ih =>
    intro f g hf hg
    cases f with
    | zero => omega
    | succ f =>
      cases g with
      | zero => omega
      | succ g =>
        simp only [natBytesAux]
        by_cases h10 : n < 10
        · simp [h10]
        · have hd : n / 10 < n := Nat.div_lt_self (by omega) (by omega)
          simp only [h10, if_false]
          rw [ih (n / 10) hd f g (by omega) (by omega)]

lemma natBytes_unfold (n : Nat) :
    natBytes n = if n < 10 then [48 + n] else natBytes (n / 10) ++ [48 + n % 10] := by
  by_cases h10 : n < 10
  · simp only [h10, if_true]
    show natBytesAux (n + 1) n = [48 + n]
    cases n with
    | zero => rfl
    | succ m => simp [natBytesAux, h10]
  · simp only [h10, if_false]
    show natBytesAux (n + 1) n = natBytesAux (n / 10 + 1) (n / 10) ++ [48 + n % 10]
    have hstep : natBytesAux (n + 1) n = natBytesAux n (n / 10) ++ [48 + n % 10] := by
      simp [natBytesAux, h10]
    rw [hstep, natBytesAux_congr (n / 10) n (n / 10 + 1)
      (Nat.lt_of_lt_of_le (Nat.div_lt_self (by omega) (by omega)) (le_refl n)) (by omega)]

lemma natBytes_ne_nil (n : Nat) : natBytes n ≠ [] := by
  rw [natBytes_unfold]
  by_cases h10 : n < 10
  · simp [h10]
  · simp [h10]

lemma natBytes_digits (n : Nat) : ∀ c ∈ natBytes n, isDigitB c = true := by
  induction n using Nat.strong_induction_on with
  | _ n ih =>
    rw [natBytes_unfold]
    by_cases h10 : n < 10
    · simp only [h10, if_true, List.mem_singleton]
      intro c hc
      subst hc
      simp [isDigitB]
      omega
    · simp only [h10, if_false, List.mem_append, List.mem_singleton]
      intro c hc
      rcases hc with hc | hc
      · exact ih (n / 10) (Nat.div_lt_self (by omega) (by omega)) c hc
      · subst hc
        simp [isDigitB]
        omega

lemma digitsVal_nil (a : Nat) : digitsVal a [] = a := rfl

lemma digitsVal_cons (a c : Nat) (cs : List Nat) :
    digitsVal a (c :: cs) = digitsVal (a * 10 + (c - 48)) cs := rfl

lemma digitsVal_append (xs ys : List Nat) : ∀ a, digitsVal a (xs ++ ys) = digitsVal (digitsVal a xs) ys := by
  induction xs with
  | nil => intro a; rfl
  | cons x xs ih =>
    intro a
    rw [List.cons_append, digitsVal_cons, digitsVal_cons]
    exact ih _

lemma digitsVal_natBytes (n : Nat) : ∀ a, digitsVal a (natBytes n) = a * 10 ^ (natBytes n).length + n := by
  induction n using Nat.strong_induction_on with
  | _ n ih =>
    intro a
    rw [natBytes_unfold]
    by_cases h10 : n < 10
    · simp only [h10, if_true]
      rw [digitsVal_cons, digitsVal_nil]
      have h48 : 48 + n - 48 = n := by omega
      rw [h48]
      simp
    · simp only [h10, if_false]
      rw [digitsVal_append, ih (n / 10) (Nat.div_lt_self (by omega) (by omega)) a,
        digitsVal_cons, digitsVal_nil]
      have h48 : 48 + n % 10 - 48 = n % 10 := by omega
      rw [h48, List.length_append]
      have hdm : n / 10 * 10 + n % 10 = n := by omega
      calc (a * 10 ^ (natBytes (n / 10)).length + n / 10) * 10 + n % 10
          = a * (10 ^ (natBytes (n / 10)).length * 10) + (n / 10 * 10 + n % 10) := by ring
        _ = a * 10 ^ ((natBytes (n / 10)).length + [48 + n % 10].length) + n := by
            rw [hdm]
            norm_num [pow_succ]

lemma natBytes_len_le (n k : Nat) (hk : 1 ≤ k) (h : n < 10 ^ k) : (natBytes n).length ≤ k := by
  induction n using Nat.strong_induction_on generalizing k with
  | _ n ih =>
    rw [natBytes_unfold]
    by_cases h10 : n < 10
    · simp [h10]
      omega
    · simp only [h10, if_false, List.length_append, List.length_singleton]
      have hk2 : 2 ≤ k := by
        by_contra hlt
        have : k = 1 := by omega
        subst this
        simp at h
        omega
      have hsub : k - 1 + 1 = k := by omega
      have hpow : 10 ^ k = 10 ^ (k - 1) * 10 := by
        conv_lhs => rw [← hsub, pow_succ]
      have hdiv : n / 10 < 10 ^ (k - 1) := by
        rw [Nat.div_lt_iff_lt_mul (by omega)]
        rw [hpow] at h
        exact h
      have := ih (n / 10) (Nat.div_lt_self (by omega) (by omega)) (k - 1) (by omega) hdiv
      omega

lemma takeDigits_all (ds r : List Nat) (hds : ∀ c ∈ ds, isDigitB c = true)
    (hr : headNondigit r = true) : takeDigits (ds ++ r) = (ds, r) := by
  induction ds with
  | nil =>
    cases r with
    | nil => simp [headNondigit] at hr
    | cons c cs =>
      simp only [headNondigit, Bool.not_eq_true'] at hr
      simp [takeDigits, hr]
  | cons d ds ih =>
    have hd : isDigitB d = true := hds d (by simp)
    have hrest : ∀ c ∈ ds, isDigitB c = true := fun c hc => hds c (by simp [hc])
    show (if isDigitB d then (d :: (takeDigits (ds ++ r)).1, (takeDigits (ds ++ r)).2)
          else ([], d :: (ds ++ r))) = (d :: ds, r)
    rw [hd, if_pos rfl, ih hrest]

lemma parseNat_natBytes (n : Nat) (r : List Nat) (hr : headNondigit r = true) :
    parseNat (natBytes n ++ r) = some (n, r) := by
  unfold parseNat
  rw [takeDigits_all (natBytes n) r (natBytes_digits n) hr]
  cases h : natBytes n with
  | nil => exact absurd h (natBytes_ne_nil n)
  | cons d ds =>
    rw [← h]
    have hval : digitsVal 0 (natBytes n) = n := by
      rw [digitsVal_natBytes]
      ring
    simp only [h]
    rw [← h, hval]

lemma stripLit_append (p r : List Nat) : stripLit p (p ++ r) = some r := by
  induction p with
  | nil => rfl
  | cons a ps ih => simp [stripLit, ih]

lemma stripLit_refl (p : List Nat) : stripLit p p = some [] := by
  have := stripLit_append p []
  simpa using this

lemma headNondigit_append (p r : List Nat) (h : headNondigit p = true) :
    headNondigit (p ++ r) = true := by
  cases p with
  | nil => simp [headNondigit] at h
  | cons c cs => simpa [headNondigit] using h

lemma headNondigit_dumpFieldSeq (ps : List (List Nat × Nat)) (tail : List Nat)
    (hsep : ∀ q ∈ ps, headNondigit q.1 = true) (htail : headNondigit tail = true) :
    headNondigit (dumpFieldSeq ps tail) = true := by
  cases ps with
  | nil => exact htail
  | cons q ps =>
    obtain ⟨sep, v⟩ := q
    have h1 : headNondigit sep = true := hsep (sep, v) (by simp)
    show headNondigit (sep ++ (natBytes v ++ dumpFieldSeq ps tail)) = true
    exact headNondigit_append _ _ h1

lemma parseFieldSeq_dump (ps : List (List Nat × Nat)) (tail : List Nat)
    (hsep : ∀ q ∈ ps, headNondigit q.1 = true) (htail : headNondigit tail = true) :
    parseFieldSeq (ps.map Prod.fst) (dumpFieldSeq ps tail) = some (ps.map Prod.snd, tail) := by
  induction ps with
  | nil => rfl
  | cons q ps ih =>
    obtain ⟨sep, v⟩ := q
    have hrest : ∀ r ∈ ps, headNondigit r.1 = true := fun r hr => hsep r (by simp [hr])
    have hhead : headNondigit (dumpFieldSeq ps tail) = true :=
      headNondigit_dumpFieldSeq ps tail hrest htail
    simp only [List.map_cons, dumpFieldSeq, parseFieldSeq, stripLit_append,
      parseNat_natBytes v (dumpFieldSeq ps tail) hhead, ih hrest]

lemma read_exactly_of_le (n : Nat) (s : List Nat) (h : n ≤ s.length) :
    read_exactly n s = some (s.take n, s.drop n) := by
  simp [read_exactly, h]

lemma recv_frame (p : List Nat) :
    unix_recv_message (some (frameMessage p)) =
      some (List.take (p.length % 65536) p, List.drop (p.length % 65536) p) := by
  have hle : p.length % 65536 ≤ p.length := Nat.mod_le _ _
  have h2 : read_exactly 2 (p.length % 65536 / 256 % 256 :: p.length % 65536 % 256 :: p)
      = some ([p.length % 65536 / 256 % 256, p.length % 65536 % 256], p) := by
    rw [read_exactly_of_le 2 _ (by simp)]
    simp
  have hval : get_uint16 [p.length % 65536 / 256 % 256, p.length % 65536 % 256]
      = p.length % 65536 := by
    show p.length % 65536 / 256 % 256 * 256 + p.length % 65536 % 256 = p.length % 65536
    omega
  simp only [unix_recv_message, frameMessage, put_field, List.cons_append, List.nil_append,
    h2, hval, read_exactly_of_le _ _ hle]

lemma dumpMessage_alive_eq (fid : Nat) (s : Snapshot) (obs stp : Int) :
    dumpMessage MessageType.ALIVE fid (some s) obs stp = dumpFieldSeq (aliveSpec fid s) aliveTail := by
  simp only [dumpMessage, dumpSnapshot, observerField, stepField, stateField, typeCode,
    aliveSpec, aliveTail, aliveHead, sepState, sepAvgUrtt, sepCnt, sepCwnd, sepLossBytes,
    sepMaxPacketsOut, sepMinRtt, sepPacingRate, sepPacketsOut, sepRetransOut, sepSrttUs,
    sepThrCnt, dumpFieldSeq, keyB, List.cons_append, List.nil_append, List.append_assoc,
    List.append_nil]

lemma aliveSpec_map_fst (fid : Nat) (s : Snapshot) : (aliveSpec fid s).map Prod.fst = aliveSeps := rfl

lemma aliveSpec_map_snd (fid : Nat) (s : Snapshot) :
    (aliveSpec fid s).map Prod.snd
      = [fid, s.avg_thr, s.avg_urtt, s.cnt, s.cwnd, s.loss_bytes, s.max_packets_out,
         s.min_rtt, s.pacing_rate, s.packets_out, s.retrans_out, s.srtt_us, s.thr_cnt] := rfl

lemma aliveSpec_heads (fid : Nat) (s : Snapshot) : ∀ q ∈ aliveSpec fid s, headNondigit q.1 = true := by
  intro q hq
  simp only [aliveSpec, List.mem_cons, List.not_mem_nil, or_false] at hq
  rcases hq with rfl | rfl | rfl | rfl | rfl | rfl | rfl | rfl | rfl | rfl | rfl | rfl | rfl
  all_goals rfl

set_option maxRecDepth 8000 in
lemma parseAlive_dump (fid : Nat) (s : Snapshot) (obs stp : Int) :
    parseAlive (dumpMessage MessageType.ALIVE fid (some s) obs stp) = some (fid, s) := by
  rw [dumpMessage_alive_eq fid s obs stp]
  unfold parseAlive
  rw [← aliveSpec_map_fst fid s,
    parseFieldSeq_dump (aliveSpec fid s) aliveTail (aliveSpec_heads fid s) (by decide),
    aliveSpec_map_snd]
  rfl

set_option maxRecDepth 8000 in
lemma alive_payload_short (fid : Nat) (s : Snapshot) (hf : fid < 2 ^ 64) (hs : ValidSnapshot s) :
    (dumpMessage MessageType.ALIVE fid (some s) (-1) (-1)).length < 65536 := by
  obtain ⟨h1, h2, h3, h4, h5, h6, h7, h8, h9, h10, h11, h12⟩ := hs
  have hb : ∀ m : Nat, m < 2 ^ 64 → (natBytes m).length ≤ 20 := by
    intro m hm
    exact natBytes_len_le m 20 (by norm_num) (lt_trans hm (by norm_num))
  have b0 := hb fid hf
  have b1 := hb s.min_rtt h1
  have b2 := hb s.avg_urtt h2
  have b3 := hb s.cnt h3
  have b4 := hb s.srtt_us h4
  have b5 := hb s.avg_thr h5
  have b6 := hb s.thr_cnt h6
  have b7 := hb s.pacing_rate h7
  have b8 := hb s.loss_bytes h8
  have b9 := hb s.packets_out h9
  have b10 := hb s.retrans_out h10
  have b11 := hb s.max_packets_out h11
  have b12 := hb s.cwnd h12
  have b13 : (natBytes 3).length ≤ 20 := hb 3 (by norm_num)
  simp only [dumpMessage, dumpSnapshot, observerField, stepField, stateField, typeCode, keyB,
    kFlowId, kState, kType, kAvgThr, kAvgUrtt, kCnt, kCwnd, kLossBytes, kMaxPacketsOut,
    kMinRtt, kPacingRate, kPacketsOut, kRetransOut, kSrttUs, kThrCnt,
    List.append_assoc, List.cons_append, List.nil_append, List.length_append,
    List.length_cons, List.length_nil]
  omega

/-- C3: codec round-trip law — for every valid Telemetry Snapshot `s` and
flow id, framing it as an ALIVE message via `unix_send_message` (2-byte
length header equal to the payload length, then the self-describing JSON
payload) and decoding via `unix_recv_message` (read exactly 2 header bytes,
then exactly that many payload bytes) followed by the payload parse yields a
structurally identical snapshot. -/
theorem alive_message_roundtrip (fid : Nat) (s : Snapshot) (hf : fid < 2 ^ 64)
    (hs : ValidSnapshot s) :
    recvAndParseAlive (unix_send_message true MessageType.ALIVE fid (some s) (-1) (-1))
      = some (fid, s) := by
  have hlen := alive_payload_short fid s hf hs
  have hmod := Nat.mod_eq_of_lt hlen
  simp only [recvAndParseAlive, unix_send_message, if_true, recv_frame, hmod, List.take_length]
  exact parseAlive_dump fid s (-1) (-1)

/-- Witness for C3 at a concrete snapshot and flow id. -/
theorem alive_message_roundtrip_witness :
    recvAndParseAlive (unix_send_message true MessageType.ALIVE 1 (some snapZero) (-1) (-1))
      = some (1, snapZero) :=
  alive_message_roundtrip 1 snapZero (by decide) (by unfold ValidSnapshot; decide)

/-- C1: drift-free cadence — with `target_time` advancing by exactly one
interval per cycle, if every cycle's processing time is below the interval
then the k-th cycle starts exactly at `t0 + k*I`; and when a cycle overruns
its boundary, the next cycle fires immediately at the overrunning cycle's
finish time (no catch-up burst). -/
theorem control_cadence_drift_free (t0 I : Nat) (p : Nat → Nat) :
    ((∀ j, p j < I) → ∀ k, cycleStart t0 I p k = t0 + k * I) ∧
    (∀ k, t0 + (k + 1) * I ≤ cycleStart t0 I p k + p k →
      cycleStart t0 I p (k + 1) = cycleStart t0 I p k + p k) := by
  constructor
  · intro h k
    induction k with
    | zero => simp [cycleStart]
    | succ k ih =>
      have e : t0 + (k + 1) * I = t0 + k * I + I := by ring
      show max (cycleStart t0 I p k + p k) (t0 + (k + 1) * I) = t0 + (k + 1) * I
      rw [ih, e]
      exact Nat.max_eq_right (Nat.add_le_add_left (Nat.le_of_lt (h k)) (t0 + k * I))
  · intro k hk
    show max (cycleStart t0 I p k + p k) (t0 + (k + 1) * I) = cycleStart t0 I p k + p k
    exact Nat.max_eq_left hk

/-- Witness for C1: interval 10, constant processing time 3, third cycle
starts exactly three intervals after the start. -/
theorem control_cadence_drift_free_witness :
    cycleStart 100 10 (fun _ => 3) 3 = 100 + 3 * 10 :=
  (control_cadence_drift_free 100 10 (fun _ => 3)).1 (fun _ => by decide) 3

lemma doCC_false (fid : Nat) (st : CtlState) (snap : Snapshot) (payload : List Nat) :
    doCongestionControl false fid st snap payload = none := rfl

lemma doCC_true_eq (fid : Nat) (st : CtlState) (snap : Snapshot) (payload : List Nat) :
    doCongestionControl true fid st snap payload
      = match cycleDecoded payload with
        | none => some (st, [Event.sendMsg (unix_send_message true MessageType.ALIVE fid (some snap) (-1) (-1)), Event.warn])
        | some c => some ({ st with lastApplied := some c },
            [Event.sendMsg (unix_send_message true MessageType.ALIVE fid (some snap) (-1) (-1)), Event.setCwnd c]
              ++ (if st.logEnabled then [Event.logLine (logBytes snap c)] else [])) := by
  unfold doCongestionControl cycleDecoded
  show (match unix_recv_message (some (frameMessage payload)) with
        | none => none
        | some (data, _) =>
          match parseCwndReply data with
          | none => some (st, [Event.sendMsg (unix_send_message true MessageType.ALIVE fid (some snap) (-1) (-1))] ++ [Event.warn])
          | some c => some ({ st with lastApplied := some c },
              [Event.sendMsg (unix_send_message true MessageType.ALIVE fid (some snap) (-1) (-1))] ++ [Event.setCwnd c]
                ++ (if st.logEnabled then [Event.logLine (logBytes snap c)] else []))) = _
  rw [recv_frame]
  show (match parseCwndReply (List.take (payload.length % 65536) payload) with
        | none => some (st, [Event.sendMsg (unix_send_message true MessageType.ALIVE fid (some snap) (-1) (-1))] ++ [Event.warn])
        | some c => some ({ st with lastApplied := some c },
            [Event.sendMsg (unix_send_message true MessageType.ALIVE fid (some snap) (-1) (-1))] ++ [Event.setCwnd c]
              ++ (if st.logEnabled then [Event.logLine (logBytes snap c)] else []))) = _
  cases hp : parseCwndReply (List.take (payload.length % 65536) payload) <;> rfl

lemma controlRun_flagFalse (conn : Bool) (fid : Nat) (st : CtlState) (snap : Snapshot)
    (payload : List Nat) (rest : List (Bool × Snapshot × List Nat)) :
    controlRun conn fid st ((false, snap, payload) :: rest) = some (st, []) := rfl

lemma controlRun_cons_true (conn : Bool) (fid : Nat) (st : CtlState) (snap : Snapshot)
    (payload : List Nat) (rest : List (Bool × Snapshot × List Nat)) :
    controlRun conn fid st ((true, snap, payload) :: rest)
      = match doCongestionControl conn fid st snap payload with
        | none => none
        | some (st1, evs) =>
          match controlRun conn fid st1 rest with
          | none => none
          | some (st2, evs2) => some (st2, evs ++ evs2) := rfl

lemma controlRun_true_isSome (inputs : List (Bool × Snapshot × List Nat)) :
    ∀ (fid : Nat) (st : CtlState), (controlRun true fid st inputs).isSome = true := by
  induction inputs with
  | nil => intro fid st; rfl
  | cons it rest ih =>
    intro fid st
    obtain ⟨flag, snap, payload⟩ := it
    cases flag with
    | false => rfl
    | true =>
      rw [controlRun_cons_true, doCC_true_eq]
      cases hp : cycleDecoded payload with
      | none =>
        obtain ⟨r, hr⟩ := Option.isSome_iff_exists.mp (ih fid st)
        obtain ⟨st2, evs2⟩ := r
        simp only [hr]
        rfl
      | some c =>
        obtain ⟨r, hr⟩ := Option.isSome_iff_exists.mp (ih fid { st with lastApplied := some c })
        obtain ⟨st2, evs2⟩ := r
        simp only [hr]
        rfl

/-- C2: decode-failure containment — for every malformed reply (one the
decode rejects), the cycle is total (no crash): it emits only the ALIVE
send and a warning, leaves the control state (hence the previously applied
window) unchanged, calls `set_tcp_cwnd` for no value, writes no log line,
and the remaining run proceeds exactly as it would from the unchanged
state. -/
theorem decode_failure_contained (fid : Nat) (st : CtlState) (snap : Snapshot)
    (payload : List Nat) (rest : List (Bool × Snapshot × List Nat))
    (hlen : payload.length < 65536) (hbad : parseCwndReply payload = none) :
    doCongestionControl true fid st snap payload
      = some (st, [Event.sendMsg (unix_send_message true MessageType.ALIVE fid (some snap) (-1) (-1)), Event.warn]) ∧
    (∀ v, Event.setCwnd v ∉ [Event.sendMsg (unix_send_message true MessageType.ALIVE fid (some snap) (-1) (-1)), Event.warn]) ∧
    (∀ l, Event.logLine l ∉ [Event.sendMsg (unix_send_message true MessageType.ALIVE fid (some snap) (-1) (-1)), Event.warn]) ∧
    controlRun true fid st ((true, snap, payload) :: rest)
      = Option.map (fun q => (q.1, [Event.sendMsg (unix_send_message true MessageType.ALIVE fid (some snap) (-1) (-1)), Event.warn] ++ q.2))
          (controlRun true fid st rest) := by
  have hcd : cycleDecoded payload = none := by
    unfold cycleDecoded
    rw [Nat.mod_eq_of_lt hlen, List.take_length]
    exact hbad
  have hstep : doCongestionControl true fid st snap payload
      = some (st, [Event.sendMsg (unix_send_message true MessageType.ALIVE fid (some snap) (-1) (-1)), Event.warn]) := by
    rw [doCC_true_eq, hcd]
  refine ⟨hstep, by simp, by simp, ?_⟩
  rw [controlRun_cons_true, hstep]
  show (match controlRun true fid st rest with
        | none => none
        | some (st2, evs2) =>
          some (st2, [Event.sendMsg (unix_send_message true MessageType.ALIVE fid (some snap) (-1) (-1)), Event.warn] ++ evs2)) = _
  cases hr : controlRun true fid st rest with
  | none => rfl
  | some r =>
    obtain ⟨st2, evs2⟩ := r
    rfl

/-- Witness for C2: a one-byte garbage reply is rejected and the cycle
leaves the state unchanged, emitting only the send and the warning. -/
theorem decode_failure_contained_witness :
    doCongestionControl true 0 { lastApplied := none, logEnabled := false } snapZero badReply
      = some ({ lastApplied := none, logEnabled := false },
          [Event.sendMsg (unix_send_message true MessageType.ALIVE 0 (some snapZero) (-1) (-1)), Event.warn]) :=
  (decode_failure_contained 0 { lastApplied := none, logEnabled := false } snapZero badReply []
    (by decide) (by decide)).1

lemma countLogLines_append (a b : List Event) :
    countLogLines (a ++ b) = countLogLines a + countLogLines b := by
  unfold countLogLines
  exact List.countP_append _ a b

/-- C6 (amended): with logging enabled, the number of data lines equals the
number of executed cycles whose reply decodes successfully — a
decode-failure cycle appends NO log line, because the early `return`
skips the perf-log write together with the window application. -/
theorem log_lines_count_decoded_cycles (fid : Nat) (st : CtlState)
    (inputs : List (Bool × Snapshot × List Nat)) (hlog : st.logEnabled = true) :
    countLogLines ((controlRun true fid st inputs).getD (st, [])).2 = successCount inputs := by
  induction inputs generalizing st with
  | nil => rfl
  | cons it rest ih =>
    obtain ⟨flag, snap, payload⟩ := it
    obtain ⟨la, le⟩ := st
    have hle : le = true := hlog
    subst hle
    cases flag with
    | false => rfl
    | true =>
      rw [controlRun_cons_true, doCC_true_eq]
      cases hp : cycleDecoded payload with
      | none =>
        obtain ⟨r, hr⟩ := Option.isSome_iff_exists.mp
          (controlRun_true_isSome rest fid ⟨la, true⟩)
        obtain ⟨st2, evs2⟩ := r
        have ihr := ih ⟨la, true⟩ rfl
        rw [hr] at ihr
        simp only [Option.getD_some] at ihr
        simp only [hr, Option.getD_some]
        show countLogLines ([Event.sendMsg (unix_send_message true MessageType.ALIVE fid (some snap) (-1) (-1)), Event.warn] ++ evs2)
            = successCount ((true, snap, payload) :: rest)
        rw [countLogLines_append,
          show countLogLines [Event.sendMsg (unix_send_message true MessageType.ALIVE fid (some snap) (-1) (-1)), Event.warn] = 0 from rfl,
          ihr]
        show 0 + successCount rest = (if (cycleDecoded payload).isSome then 1 else 0) + successCount rest
        rw [hp]
        simp
      | some c =>
        obtain ⟨r, hr⟩ := Option.isSome_iff_exists.mp
          (controlRun_true_isSome rest fid ⟨some c, true⟩)
        obtain ⟨st2, evs2⟩ := r
        have ihr := ih ⟨some c, true⟩ rfl
        rw [hr] at ihr
        simp only [Option.getD_some] at ihr
        simp only [hr, Option.getD_some]
        show countLogLines (([Event.sendMsg (unix_send_message true MessageType.ALIVE fid (some snap) (-1) (-1)), Event.setCwnd c]
              ++ (if (true : Bool) then [Event.logLine (logBytes snap c)] else [])) ++ evs2)
            = successCount ((true, snap, payload) :: rest)
        rw [countLogLines_append,
          show countLogLines ([Event.sendMsg (unix_send_message true MessageType.ALIVE fid (some snap) (-1) (-1)), Event.setCwnd c]
              ++ (if (true : Bool) then [Event.logLine (logBytes snap c)] else [])) = 1 from rfl,
          ihr]
        show 1 + successCount rest = (if (cycleDecoded payload).isSome then 1 else 0) + successCount rest
        rw [hp]
        simp

/-- Witness for C6 (amended) at one concrete successfully decoded cycle. -/
theorem log_lines_count_decoded_cycles_witness :
    countLogLines ((controlRun true 0 { lastApplied := none, logEnabled := true }
        [(true, snapZero, goodReply5)]).getD ({ lastApplied := none, logEnabled := true }, [])).2
      = successCount [(true, snapZero, goodReply5)] :=
  log_lines_count_decoded_cycles 0 { lastApplied := none, logEnabled := true }
    [(true, snapZero, goodReply5)] rfl

/-- C6 counterexample: two executed cycles, the second with an unparseable
reply, produce exactly ONE data line — not the two lines the claim
("N cycles produce N data lines, the log write still executes on decode
failure") requires. -/
theorem log_per_cycle_claim_false :
    countLogLines ((controlRun true 0 { lastApplied := none, logEnabled := true }
        [(true, snapZero, goodReply5), (true, snapZero, badReply)]).getD
        ({ lastApplied := none, logEnabled := true }, [])).2 = 1 ∧ (1 : Nat) ≠ 2 := by
  constructor
  · decide
  · decide

/-- C8 counterexample: the reply carrying `cwnd: -1` parses successfully
(JSON integers may be negative, and the client stores the value in a signed
`int`), and the cycle passes the NEGATIVE value -1 to `set_tcp_cwnd` — the
claim that every applied window value is non-negative is false. -/
theorem nonnegative_action_claim_false :
    parseCwndReply negReply = some (-1) ∧
    Event.setCwnd (-1) ∈ ((doCongestionControl true 0 { lastApplied := none, logEnabled := false }
        snapZero negReply).getD ({ lastApplied := none, logEnabled := false }, [])).2 ∧
    (-1 : Int) < 0 := by
  refine ⟨by decide, by decide, by decide⟩

/-- C8 (amended): the window value applied in step 6 equals exactly the
integer decoded from the reply — the code performs no non-negativity check,
so the applied value is non-negative only when the reply's value is. -/
theorem applied_cwnd_equals_decoded (fid : Nat) (st : CtlState) (snap : Snapshot)
    (payload : List Nat) (v : Int) (hlen : payload.length < 65536)
    (hdec : parseCwndReply payload = some v) :
    Event.setCwnd v ∈ ((doCongestionControl true fid st snap payload).getD (st, [])).2 ∧
    (∀ w, Event.setCwnd w ∈ ((doCongestionControl true fid st snap payload).getD (st, [])).2 → w = v) ∧
    ((doCongestionControl true fid st snap payload).getD (st, [])).1.lastApplied = some v := by
  have hcd : cycleDecoded payload = some v := by
    unfold cycleDecoded
    rw [Nat.mod_eq_of_lt hlen, List.take_length]
    exact hdec
  rw [doCC_true_eq, hcd]
  simp only [Option.getD_some]
  refine ⟨?_, ?_, by trivial⟩
  · by_cases hl : st.logEnabled <;> simp [hl]
  · intro w hw
    by_cases hl : st.logEnabled <;> simp [hl] at hw <;> exact hw

/-- Witness for C8 (amended): the reply `cwnd: 7` leads to exactly the
applied value 7. -/
theorem applied_cwnd_equals_decoded_witness :
    Event.setCwnd 7 ∈ ((doCongestionControl true 0 { lastApplied := none, logEnabled := false }
        snapZero [123, 34, 99, 119, 110, 100, 34, 58, 55, 125]).getD
        ({ lastApplied := none, logEnabled := false }, [])).2 :=
  (applied_cwnd_equals_decoded 0 { lastApplied := none, logEnabled := false } snapZero
    [123, 34, 99, 119, 110, 100, 34, 58, 55, 125] 7 (by decide) (by decide)).1

lemma deliverSignals_cons (st : ProcState) (s : Nat) (rest : List Nat) :
    deliverSignals st (s :: rest) = deliverSignals (signalHandler st s) rest := rfl

lemma deliverSignals_exited (sigs : List Nat) : ∀ st : ProcState, st.exited = true →
    deliverSignals st sigs = st := by
  induction sigs with
  | nil => intro st _; rfl
  | cons s rest ih =>
    intro st h
    rw [deliverSignals_cons, show signalHandler st s = st from by simp [signalHandler, h]]
    exact ih st h

lemma deliverSignals_fresh (logO conn : Bool) (sigs : List Nat) :
    (deliverSignals ⟨true, logO, conn, 0, false⟩ sigs).endsSent ≤ 1 ∧
    ((∃ s ∈ sigs, isTermSig s = true) →
      deliverSignals ⟨true, logO, conn, 0, false⟩ sigs
        = ⟨false, false, conn, if conn then 1 else 0, true⟩) := by
  induction sigs with
  | nil =>
    refine ⟨by simp [deliverSignals], ?_⟩
    intro hex
    obtain ⟨t, ht, _⟩ := hex
    exact absurd ht (List.not_mem_nil t)
  | cons s rest ih =>
    by_cases hs : isTermSig s = true
    · have hstep : signalHandler ⟨true, logO, conn, 0, false⟩ s
          = ⟨false, false, conn, if conn then 1 else 0, true⟩ := by
        simp [signalHandler, hs]
      have habs : deliverSignals ⟨false, false, conn, if conn then 1 else 0, true⟩ rest
          = ⟨false, false, conn, if conn then 1 else 0, true⟩ :=
        deliverSignals_exited rest _ rfl
      constructor
      · rw [deliverSignals_cons, hstep, habs]
        by_cases hc : conn <;> simp [hc]
      · intro _
        rw [deliverSignals_cons, hstep, habs]
    · have hstep : signalHandler ⟨true, logO, conn, 0, false⟩ s
          = ⟨true, logO, conn, 0, false⟩ := by
        simp [signalHandler, hs]
      constructor
      · rw [deliverSignals_cons, hstep]
        exact ih.1
      · intro hex
        obtain ⟨t, ht, htt⟩ := hex
        rcases List.mem_cons.mp ht with rfl | htr
        · exact absurd htt hs
        · rw [deliverSignals_cons, hstep]
          exact ih.2 ⟨t, htr, htt⟩

/-- C4: shutdown sends exactly one END — across any sequence of delivered
signals from the running state, at most one END message is ever sent; once
a termination signal arrives the flag is cleared, the log closed, the
process exited, and exactly one END is sent iff the decision-process
connection exists; later signals (a second flip, or a flip after the stop)
send no additional END.  Moreover the control loop, observing the flag
false at the top of an iteration, stops with no further events. -/
theorem shutdown_sends_single_end (logO conn : Bool) (sigs : List Nat) :
    (deliverSignals ⟨true, logO, conn, 0, false⟩ sigs).endsSent ≤ 1 ∧
    ((∃ s ∈ sigs, isTermSig s = true) →
      (deliverSignals ⟨true, logO, conn, 0, false⟩ sigs).endsSent = (if conn then 1 else 0) ∧
      (deliverSignals ⟨true, logO, conn, 0, false⟩ sigs).sendTraffic = false ∧
      (deliverSignals ⟨true, logO, conn, 0, false⟩ sigs).logOpen = false ∧
      (deliverSignals ⟨true, logO, conn, 0, false⟩ sigs).exited = true) ∧
    (∀ (fid : Nat) (st : CtlState) (snap : Snapshot) (payload : List Nat)
       (rest : List (Bool × Snapshot × List Nat)),
      controlRun true fid st ((false, snap, payload) :: rest) = some (st, [])) := by
  obtain ⟨h1, h2⟩ := deliverSignals_fresh logO conn sigs
  refine ⟨h1, fun hex => ?_, fun fid st snap payload rest => rfl⟩
  rw [h2 hex]
  exact ⟨rfl, rfl, rfl, rfl⟩

/-- Witness for C4: SIGINT followed by SIGTERM, with a connection open,
sends exactly one END. -/
theorem shutdown_sends_single_end_witness :
    (deliverSignals ⟨true, true, true, 0, false⟩ [2, 15]).endsSent = (if true then 1 else 0) :=
  ((shutdown_sends_single_end true true [2, 15]).2.1 ⟨2, by decide, by decide⟩).1

lemma dataLoop_events (iters : List (Bool × Bool)) :
    ∀ e ∈ (dataLoop iters).1, e = Event.writeData dataChunk := by
  induction iters with
  | nil => intro e he; exact absurd he (List.not_mem_nil e)
  | cons it rest ih =>
    obtain ⟨flag, ok⟩ := it
    intro e he
    cases flag with
    | false => exact absurd he (List.not_mem_nil e)
    | true =>
      cases ok with
      | false =>
        simp only [dataLoop, if_true] at he
        rcases List.mem_singleton.mp he with rfl
        rfl
      | true =>
        simp only [dataLoop, if_true] at he
        rcases List.mem_cons.mp he with rfl | hmem
        · rfl
        · exact ih e hmem

lemma mainRun_isSome_indep (cfg : Config) (hs : List Nat) (ctl : List (Bool × Snapshot × List Nat))
    (dat1 dat2 : List (Bool × Bool)) :
    (mainRun cfg hs ctl dat1).isSome = (mainRun cfg hs ctl dat2).isSome := by
  unfold mainRun
  by_cases hc : cfg.congAstraea
  · rw [if_pos hc, if_pos hc]
    cases unix_recv_message (some (frameMessage hs)) with
    | none => rfl
    | some dr =>
      obtain ⟨data, r⟩ := dr
      dsimp only
      cases parseFlowId data with
      | none => rfl
      | some fid =>
        dsimp only
        cases (if controlThreadStarted cfg then
                 controlRun true fid { lastApplied := none, logEnabled := cfg.perfLogEnabled } ctl
               else some ({ lastApplied := none, logEnabled := cfg.perfLogEnabled }, [])) with
        | none => rfl
        | some pr =>
          obtain ⟨st2, cevs⟩ := pr
          rfl
  · rw [if_neg hc, if_neg hc]
    rfl

/-- C9: Data Loop contract — an iteration that reads the Shutdown Flag as
false exits at once with no write (exit cause `flagDown`, distinct from a
flag flip by the loop itself, which has no write path to the flag); a
failed write of the filler buffer is terminal for this loop only (exit
cause `writeFail`, no further iterations); every event the loop ever emits
is a write of the one fixed filler buffer; and the rest of the process
survives any data-thread schedule: whether `mainRun` crashes is independent
of the data loop's inputs. -/
theorem data_loop_contract :
    (∀ (ok : Bool) (rest : List (Bool × Bool)),
      dataLoop ((false, ok) :: rest) = ([], some DataExit.flagDown)) ∧
    (∀ rest : List (Bool × Bool),
      dataLoop ((true, false) :: rest) = ([Event.writeData dataChunk], some DataExit.writeFail)) ∧
    (∀ iters : List (Bool × Bool), ∀ e ∈ (dataLoop iters).1, e = Event.writeData dataChunk) ∧
    (∀ (cfg : Config) (hs : List Nat) (ctl : List (Bool × Snapshot × List Nat))
       (dat1 dat2 : List (Bool × Bool)),
      (mainRun cfg hs ctl dat1).isSome = (mainRun cfg hs ctl dat2).isSome) :=
  ⟨fun _ _ => rfl, fun _ => rfl, dataLoop_events, mainRun_isSome_indep⟩

/-- Witness for C9: the single event of a one-iteration run is the fixed
filler-buffer write. -/
theorem data_loop_contract_witness :
    Event.writeData dataChunk = Event.writeData dataChunk :=
  data_loop_contract.2.2.1 [(true, true)] (Event.writeData dataChunk)
    (by simp [dataLoop])

/-- C5 counterexample: with no decision process configured the control
thread is NOT started at all — refuting the claim that the Control Loop
still runs on its cadence as a no-op timer. -/
theorem no_rl_timer_claim_false :
    ¬ (controlThreadStarted { congAstraea := false, perfLogEnabled := false, flowId := none } = true) := by
  decide

/-- C5 (amended): when no decision-process connection is configured, the
control thread is not started at all (there is no no-op timer); the run
performs no window assignment whatsoever, so the kernel-selected algorithm
governs the window throughout, while data transmission proceeds normally
and a termination signal still shuts the process down, sending no END. -/
theorem no_rl_mode_amended (l : Bool) (idOpt : Option Nat) (hs : List Nat)
    (ctl : List (Bool × Snapshot × List Nat)) (dat : List (Bool × Bool)) :
    controlThreadStarted { congAstraea := false, perfLogEnabled := l, flowId := idOpt } = false ∧
    mainRun { congAstraea := false, perfLogEnabled := l, flowId := idOpt } hs ctl dat
      = some ((if l then [Event.logLine headerBytes] else []) ++ (dataLoop dat).1) ∧
    (∀ v : Int, Event.setCwnd v ∉ (if l then [Event.logLine headerBytes] else []) ++ (dataLoop dat).1) ∧
    signalHandler ⟨true, l, false, 0, false⟩ 15 = ⟨false, false, false, 0, true⟩ := by
  refine ⟨rfl, rfl, ?_, rfl⟩
  intro v hv
  rcases List.mem_append.mp hv with h | h
  · cases l with
    | false => exact absurd h (List.not_mem_nil _)
    | true =>
      rcases List.mem_singleton.mp h with h'
      exact Event.noConfusion h'
  · exact Event.noConfusion (dataLoop_events dat _ h)

/-- Witness for C5 (amended): concrete no-RL run with logging enabled. -/
theorem no_rl_mode_amended_witness :
    mainRun { congAstraea := false, perfLogEnabled := true, flowId := none } [] [] []
      = some ((if true then [Event.logLine headerBytes] else []) ++ (dataLoop []).1) :=
  (no_rl_mode_amended true none [] [] []).2.1

/-- C10: receive requires a live connection — `unix_send_message` on a null
handle is a guarded no-op, while `unix_recv_message` has no null guard (a
control loop started without a connection crashes on its first active
cycle), and `main` preserves the invariant: the handshake receive runs only
inside the astraea branch right after `connect`, and the control thread is
started only when the handle is non-null, so the whole run never performs a
null-handle receive (it is total whenever the handshake reply is
well-formed). -/
theorem recv_requires_live_connection (cfg : Config) (hs : List Nat)
    (ctl : List (Bool × Snapshot × List Nat)) (dat : List (Bool × Bool))
    (h1 : cfg.congAstraea = true → (parseFlowId hs).isSome = true)
    (h2 : hs.length < 65536) :
    (mainRun cfg hs ctl dat).isSome = true ∧
    (∀ (t : MessageType) (fid : Nat) (stt : Option Snapshot) (obs stp : Int),
      unix_send_message false t fid stt obs stp = []) ∧
    (∀ (fid : Nat) (st : CtlState) (snap : Snapshot) (payload : List Nat)
       (rest : List (Bool × Snapshot × List Nat)),
      controlRun false fid st ((true, snap, payload) :: rest) = none) := by
  refine ⟨?_, fun t fid stt obs stp => rfl, fun fid st snap payload rest => rfl⟩
  unfold mainRun
  by_cases hc : cfg.congAstraea
  · rw [if_pos hc]
    have hhs : List.take (hs.length % 65536) hs = hs := by
      rw [Nat.mod_eq_of_lt h2, List.take_length]
    obtain ⟨fid, hfid⟩ := Option.isSome_iff_exists.mp (h1 hc)
    have hstart : controlThreadStarted cfg = true := by
      simp [controlThreadStarted, useRL, inferenceServerConnected, hc]
    obtain ⟨r, hr⟩ := Option.isSome_iff_exists.mp
      (controlRun_true_isSome ctl fid { lastApplied := none, logEnabled := cfg.perfLogEnabled })
    obtain ⟨st2, cevs⟩ := r
    simp only [recv_frame, hhs, hfid, if_pos hstart, hr]
    rfl
  · rw [if_neg hc]
    rfl

/-- Witness for C10: astraea mode with a well-formed handshake reply runs
without any null-handle receive. -/
theorem recv_requires_live_connection_witness :
    (mainRun { congAstraea := true, perfLogEnabled := false, flowId := none }
        flowIdReply1 [] []).isSome = true :=
  (recv_requires_live_connection { congAstraea := true, perfLogEnabled := false, flowId := none }
    flowIdReply1 [] [] (fun _ => by decide) (by decide)).1

/-- C7: performance-log line format — every data line is exactly the
thirteen tab-separated fields min_rtt, avg_urtt, cnt, srtt, avg_thr,
thr_cnt, pacing_rate, loss_bytes, packets_out, retrans_out,
max_packets_out, kernel cwnd, assigned cwnd, in that order; the logged srtt
equals the snapshot's `srtt_us` divided by 8 (the `>> 3` conversion from
1/8-microsecond ticks); and in any run with logging enabled the first line
written to the log is the matching thirteen-column header. -/
theorem perf_log_line_format (s : Snapshot) (c : Int) (cfg : Config) (hs : List Nat)
    (ctl : List (Bool × Snapshot × List Nat)) (dat : List (Bool × Bool)) (es : List Event)
    (hlog : cfg.perfLogEnabled = true) (hrun : mainRun cfg hs ctl dat = some es) :
    logBytes s c = sepJoin [9]
      [natBytes s.min_rtt, natBytes s.avg_urtt, natBytes s.cnt, natBytes (s.srtt_us / 8),
       natBytes s.avg_thr, natBytes s.thr_cnt, natBytes s.pacing_rate, natBytes s.loss_bytes,
       natBytes s.packets_out, natBytes s.retrans_out, natBytes s.max_packets_out,
       natBytes s.cwnd, intBytes c] ∧
    [natBytes s.min_rtt, natBytes s.avg_urtt, natBytes s.cnt, natBytes (s.srtt_us / 8),
     natBytes s.avg_thr, natBytes s.thr_cnt, natBytes s.pacing_rate, natBytes s.loss_bytes,
     natBytes s.packets_out, natBytes s.retrans_out, natBytes s.max_packets_out,
     natBytes s.cwnd, intBytes c].length = 13 ∧
    headerBytes = sepJoin [9] headerFields ∧
    headerFields.length = 13 ∧
    firstLogLine es = some headerBytes := by
  have h8 : s.srtt_us >>> 3 = s.srtt_us / 8 := by
    rw [Nat.shiftRight_eq_div_pow]
  refine ⟨?_, rfl, by decide, rfl, ?_⟩
  · simp [logBytes, sepJoin, h8, List.append_assoc]
  · unfold mainRun at hrun
    by_cases hc : cfg.congAstraea
    · rw [if_pos hc] at hrun
      cases hrecv : unix_recv_message (some (frameMessage hs)) with
      | none =>
        rw [hrecv] at hrun
        exact Option.noConfusion hrun
      | some dr =>
        obtain ⟨data, r⟩ := dr
        rw [hrecv] at hrun
        dsimp only at hrun
        cases hfid : parseFlowId data with
        | none =>
          rw [hfid] at hrun
          exact Option.noConfusion hrun
        | some fid =>
          rw [hfid] at hrun
          dsimp only at hrun
          cases hctl : (if controlThreadStarted cfg then
              controlRun true fid { lastApplied := none, logEnabled := cfg.perfLogEnabled } ctl
            else some ({ lastApplied := none, logEnabled := cfg.perfLogEnabled }, [])) with
          | none =>
            rw [hctl] at hrun
            exact Option.noConfusion hrun
          | some pr =>
            obtain ⟨st2, cevs⟩ := pr
            rw [hctl] at hrun
            dsimp only at hrun
            have hes : es = [Event.sendMsg (unix_send_message true MessageType.START (cfg.flowId.getD 0) none (-1) (-1))]
                ++ (if cfg.perfLogEnabled then [Event.logLine headerBytes] else [])
                ++ cevs ++ (dataLoop dat).1 := (Option.some.inj hrun).symm
            rw [hes, hlog]
            simp [firstLogLine, List.filterMap_append]
    · rw [if_neg hc] at hrun
      have hes : es = (if cfg.perfLogEnabled then [Event.logLine headerBytes] else [])
          ++ (dataLoop dat).1 := (Option.some.inj hrun).symm
      rw [hes, hlog]
      simp [firstLogLine, List.filterMap_append]

/-- Witness for C7 at a concrete logging-enabled run. -/
theorem perf_log_line_format_witness :
    firstLogLine [Event.logLine headerBytes] = some headerBytes :=
  (perf_log_line_format snapZero 0 { congAstraea := false, perfLogEnabled := true, flowId := none }
    [] [] [] [Event.logLine headerBytes] rfl rfl).2.2.2.2
